import Mathlib

/-
Verification of the edu_library utilities (src/preload.js).

The file shallowly embeds the three functions of the module —
`transformToRows`, `academicYear` and `currentAcademicYear` — and proves
the specification claims about them.

Modelling conventions:
* JavaScript values flowing through `transformToRows` are modelled by the
  inductive type `JVal`.  JS numbers are modelled as mathematical integers
  (`Int`); the module only ever produces or consumes integral numbers.
  Strings are modelled as sequences of Unicode code points (the UTF-16
  code-unit view of JS only differs on astral-plane characters, which the
  module never manufactures).
* A JS object is modelled as an association list of (key, value) pairs in
  the object's own enumeration order, with pairwise distinct keys (a JS
  object cannot hold the same key twice).
* `undefined` results of property accesses are modelled with `Option`
  (`none` = undefined), matching the `?.` / `??` operators of the source.
-/

set_option autoImplicit false

namespace EduLib

/-- JavaScript values, as needed by `transformToRows` in src/preload.js.
Numbers are restricted to integral values (see the header comment). -/
inductive JVal where
  | null
  | undef
  | bool (b : Bool)
  | num (n : Int)
  | str (s : String)
  | arr (elems : List JVal)
  | obj (fields : List (String × JVal))

/-- True exactly for values `v` with `v` truthy and `typeof v === 'object'`:
`null` is falsy, `undefined`/booleans/numbers/strings have a different
`typeof`, while arrays and plain objects pass the test (a truthy check on an
object is always true).  This is the guard on line 25 of src/preload.js,
`!retoolQueryData || typeof retoolQueryData !== 'object'`, negated. -/
def isObjectLike : JVal → Bool
  | .arr _ => true
  | .obj _ => true
  | _ => false

/-- First value bound to key `k` in an association list (JS objects have
distinct keys, so "first" is "the" binding). `none` models `undefined`. -/
def lookupField (fields : List (String × JVal)) (k : String) : Option JVal :=
  (fields.find? (fun p => p.1 == k)).map Prod.snd

/-- Object.keys: field names in enumeration order for plain objects, index
strings for arrays, and `[]` otherwise (not reached behind the guard). -/
def objectKeys : JVal → List String
  | .obj fields => fields.map Prod.fst
  | .arr elems => (List.range elems.length).map (fun i => toString i)
  | _ => []

/-- Property access `d[k]` for a string key `k`; `none` models `undefined`. -/
def getProp : JVal → String → Option JVal
  | .obj fields, k => lookupField fields k
  | .arr elems, k =>
      (List.range elems.length).findSome?
        (fun i => if toString i = k then elems[i]? else none)
  | _, _ => none

/-- Index access `v[i]` for a numeric index `i`; `none` models `undefined`.
On strings, `s[i]` is the one-character string at position `i`. -/
def getIndex : JVal → Nat → Option JVal
  | .arr elems, i => elems[i]?
  | .str s, i => (s.toList[i]?).map (fun c => JVal.str (String.mk [c]))
  | .obj fields, i => lookupField fields (toString i)
  | _, _ => none

/-- Collapse of `x ?? null` applied to a possibly-undefined access result:
both `undefined` and `null` become `null`, every other value is kept. -/
def orNull : Option JVal → JVal
  | none => JVal.null
  | some JVal.undef => JVal.null
  | some v => v

/-- Is this value the JS `undefined`? -/
def JVal.isUndef : JVal → Bool
  | .undef => true
  | _ => false

/-- The `v?.length || 0` read on line 28 of src/preload.js, combined with
the length coercion `Array.from` applies to it: array and string lengths
are returned as given, a numeric `length` field of a plain object is
clamped to zero when negative (as ToLength does), and every value with no
length property — including nullish values, whose `?.` access already
yields `undefined` — gives 0.  Plain objects whose `length` field is a
non-numeric truthy value (which ToLength would coerce) are outside the
modelled input domain. -/
def lengthOrZero : JVal → Nat
  | .arr elems => elems.length
  | .str s => s.toList.length
  | .obj fields =>
      match lookupField fields "length" with
      | some (.num n) => n.toNat
      | _ => 0
  | _ => 0

/-- The cell stored under key `k` of row `i`: the source expression
`retoolQueryData[key]?.[i] ?? null` on line 33 of src/preload.js. -/
def cellValue (d : JVal) (k : String) (i : Nat) : JVal :=
  orNull ((getProp d k).bind (fun v => getIndex v i))

/-- Row `i` of the transformation: the object built by the loop on lines
31–35 of src/preload.js, with one entry per key of the input, in key
enumeration order. -/
def rowAt (d : JVal) (i : Nat) : List (String × JVal) :=
  (objectKeys d).map (fun k => (k, cellValue d k i))

/-- The row count of line 28 of src/preload.js:
`retoolQueryData[keys[0]]?.length || 0`, which is 0 when there are no keys
(`keys[0]` is `undefined`, and an empty object has no "undefined" key). -/
def rowCount (d : JVal) : Nat :=
  match (objectKeys d).head? with
  | none => 0
  | some k0 =>
      match getProp d k0 with
      | none => 0
      | some v => lengthOrZero v

/-- `transformToRows` from src/preload.js lines 24–39: guard on line 25,
then `Array.from({length: rowCount}, (_, i) => row)`. -/
def transformToRows (d : JVal) : List (List (String × JVal)) :=
  if isObjectLike d then (List.range (rowCount d)).map (rowAt d) else []

/-- Inputs of `academicYear`: the JSDoc type is `string|number`, and number
inputs are modelled as integers (see the header comment). -/
inductive JSInput where
  | int (n : Int)
  | str (s : String)

/-- Characters treated as whitespace by `parseInt` (ECMAScript StringToNumber
skips WhiteSpace and LineTerminator code points; the common ones suffice for
this module's input domain). -/
def isJsWhitespaceChar (c : Char) : Bool :=
  c = ' ' || c = '\t' || c = '\n' || c = '\r' ||
  c = Char.ofNat 11 || c = Char.ofNat 12 || c = Char.ofNat 0xA0 || c = Char.ofNat 0xFEFF

/-- `parseInt(s, 10)`: skip leading whitespace, read an optional sign, then
the longest prefix of decimal digits; no digits means NaN (`none`).  The
mathematical value of the digit prefix is kept exactly (JS rounds it to a
double, which is only inexact beyond 2^53 — far past the range where
`academicYear` can still construct a date, so no claim depends on it). -/
def parseIntBase10 (s : String) : Option Int :=
  let cs := s.toList.dropWhile isJsWhitespaceChar
  let signed : Int × List Char :=
    match cs with
    | '-' :: r => (-1, r)
    | '+' :: r => (1, r)
    | r => (1, r)
  let digits := signed.2.takeWhile (fun c => '0' ≤ c && c ≤ '9')
  if digits.isEmpty then none
  else some (signed.1 * (digits.foldl (fun acc c => acc * 10 + ((c.toNat - '0'.toNat) : Int)) 0))

/-- Decimal digit list of a nonnegative number, cut to an exponential-notation
numeral the way Number::toString renders integers of magnitude at least
10^21: significand digits with trailing zeros removed, a dot after the first
digit when more than one remains, and the decimal exponent after "e+". -/
def jsExpNatString (n : Nat) : String :=
  let ds := (toString n).toList
  let sig := (ds.reverse.dropWhile (fun c => c = '0')).reverse
  let expo := ds.length - 1
  match sig with
  | [] => "0"
  | [c] => String.mk [c] ++ "e+" ++ toString expo
  | c :: rest => String.mk [c] ++ "." ++ String.mk rest ++ "e+" ++ toString expo

/-- Number::toString for an integral JS number: plain decimal notation for
magnitudes below 10^21, exponential notation from 10^21 on. -/
def jsIntToString (n : Int) : String :=
  if n.natAbs < 10 ^ 21 then toString n
  else if n < 0 then "-" ++ jsExpNatString n.natAbs else jsExpNatString n.natAbs

/-- The string `parseInt` receives: string inputs as given, number inputs
via Number::toString. -/
def inputString : JSInput → String
  | .int n => jsIntToString n
  | .str s => s

/-- Date.UTC's MakeFullYear step: an integer year in 0..99 is interpreted
as 1900 + year; all other years are taken literally. -/
def resolveUTCFullYear (y : Int) : Int :=
  if 0 ≤ y ∧ y ≤ 99 then 1900 + y else y

/-- Day number of the proleptic Gregorian calendar date (y, m, d) — month
1..12, day 1..31 — relative to 1970-01-01, the value ECMAScript MakeDay
computes for integral arguments (standard civil-from-days arithmetic). -/
def daysFromCivil (y m d : Int) : Int :=
  let yAdj := y - (if m ≤ 2 then 1 else 0)
  let era := yAdj / 400
  let yoe := yAdj - era * 400
  let mp := m + (if 2 < m then -3 else 9)
  let doy := (153 * mp + 2) / 5 + d - 1
  let doe := yoe * 365 + yoe / 4 - yoe / 100 + doy
  era * 146097 + doe - 719468

/-- A date is representable as a JS Date exactly when its time value is at
most 8.64e15 milliseconds from the epoch in either direction (TimeClip);
at midnight that is 10^8 days.  Outside this range `Date.UTC` produces NaN
and `toISOString` throws a RangeError. -/
def inDateRange (y m d : Int) : Bool :=
  decide (-(10 ^ 8) ≤ daysFromCivil y m d) && decide (daysFromCivil y m d ≤ 10 ^ 8)

/-- Left-pad a numeral with zeros to the given width. -/
def padZeros (s : String) (w : Nat) : String :=
  String.mk (List.replicate (w - s.length) '0') ++ s

/-- The year field of Date.prototype.toISOString: four zero-padded digits
for years 0..9999, otherwise the expanded-year form with an explicit sign
and six digits. -/
def isoYearString (y : Int) : String :=
  if y < 0 then "-" ++ padZeros (toString (-y)) 6
  else if y ≤ 9999 then padZeros (toString y) 4
  else "+" ++ padZeros (toString y) 6

/-- The date part of `toISOString().split('T')[0]` (lines 71–72 of
src/preload.js) for the midnight-UTC date (y, m, d). -/
def isoDatePart (y m d : Int) : String :=
  isoYearString y ++ "-" ++ padZeros (toString m) 2 ++ "-" ++ padZeros (toString d) 2

/-- Result record of `academicYear` (lines 79–88 of src/preload.js). -/
structure AcademicYearInfo where
  start : String
  «end» : String
  rangeFull : String
  rangeShort : String
  rangeCompact : String
  rangeMixed : String
  label : String
  deriving DecidableEq

/-- Outcome of a call to `academicYear`: `nullResult` is the early return
of line 65 (preceded by the `console.error` diagnostic of line 64),
`thrown` is a RangeError escaping from `toISOString()` on line 71 or 72
when the computed time value is out of the representable Date range, and
`ok` is a normal return. -/
inductive AcademicYearResult where
  | nullResult
  | thrown
  | ok (info : AcademicYearInfo)
  deriving DecidableEq

/-- `s.slice(-2)`: the last two characters of `s` (all of `s` when it is
shorter than two characters). -/
def slice2 (s : String) : String :=
  String.mk (s.toList.drop (s.toList.length - 2))

/-- `academicYear` from src/preload.js lines 60–88.  The two `Date`
constructions normalise nothing (September 1 and August 31 are literal
month/day pairs), so the reachable behaviour is: parse failure returns
null; a date outside the representable range makes `toISOString` throw;
otherwise the record of lines 79–87 is returned. -/
def academicYear (input : JSInput) : AcademicYearResult :=
  match parseIntBase10 (inputString input) with
  | none => .nullResult
  | some year =>
      let startYear := resolveUTCFullYear year
      let endYear := resolveUTCFullYear (year + 1)
      if inDateRange startYear 9 1 && inDateRange endYear 8 31 then
        let fullStart := jsIntToString year
        let fullEnd := jsIntToString (year + 1)
        let shortStart := slice2 fullStart
        let shortEnd := slice2 fullEnd
        .ok { start := isoDatePart startYear 9 1
            , «end» := isoDatePart endYear 8 31
            , rangeFull := fullStart ++ "-" ++ fullEnd
            , rangeShort := shortStart ++ "-" ++ shortEnd
            , rangeCompact := shortStart ++ shortEnd
            , rangeMixed := fullStart ++ "-" ++ shortEnd
            , label := fullStart ++ "–" ++ fullEnd }
      else .thrown

/-- `currentAcademicYear` from src/preload.js lines 100–109, as a function
of the two clock reads it performs (`getUTCFullYear()` and the 0-based
`getUTCMonth()`). -/
def currentAcademicYear (utcFullYear : Int) (utcMonth : Nat) : Int :=
  if utcMonth < 8 then utcFullYear - 1 else utcFullYear

/-! Helper lemmas about the row transformation. -/

theorem lookupField_map_self (keys : List String) (g : String → JVal) (k : String)
    (h : k ∈ keys) :
    lookupField (keys.map (fun k2 => (k2, g k2))) k = some (g k) := by
  induction keys with
  | nil => cases h
  | cons a tl ih =>
      by_cases hak : a = k
      · subst hak
        simp [lookupField, List.find?]
      · have hk : k ∈ tl := by
          rcases List.mem_cons.mp h with h1 | h1
          · exact absurd h1.symm hak
          · exact h1
        have hfalse : (a == k) = false := beq_eq_false_iff_ne.mpr hak
        have := ih hk
        simp only [lookupField] at this
        simp only [lookupField, List.map_cons, List.find?, hfalse]
        exact this

theorem lookupField_eq_of_nodup_mem (fields : List (String × JVal)) (k : String) (v : JVal)
    (hnd : (fields.map Prod.fst).Nodup) (hmem : (k, v) ∈ fields) :
    lookupField fields k = some v := by
  induction fields with
  | nil => cases hmem
  | cons p tl ih =>
      rcases List.mem_cons.mp hmem with h1 | h1
      · subst h1
        simp [lookupField, List.find?]
      · have htl : k ∈ tl.map Prod.fst := List.mem_map_of_mem Prod.fst h1
        have hne : p.1 ≠ k := by
          intro heq
          have h2 : p.1 ∉ tl.map Prod.fst := (List.nodup_cons.mp (by simpa using hnd)).1
          exact h2 (by rw [heq]; exact htl)
        have hfalse : (p.1 == k) = false := beq_eq_false_iff_ne.mpr hne
        have := ih (by simpa using (List.nodup_cons.mp (by simpa using hnd)).2) h1
        simp only [lookupField] at this
        simp only [lookupField, List.find?, hfalse]
        exact this

theorem transformToRows_obj (fields : List (String × JVal)) :
    transformToRows (JVal.obj fields) =
      (List.range (rowCount (JVal.obj fields))).map (rowAt (JVal.obj fields)) := by
  simp [transformToRows, isObjectLike]

theorem rowCount_obj_cons (k : String) (v : JVal) (rest : List (String × JVal)) :
    rowCount (JVal.obj ((k, v) :: rest)) = lengthOrZero v := by
  simp [rowCount, objectKeys, getProp, lookupField, List.find?]

theorem length_transformToRows_obj (fields : List (String × JVal)) :
    (transformToRows (JVal.obj fields)).length = rowCount (JVal.obj fields) := by
  simp [transformToRows_obj]

theorem getElem?_transformToRows_obj (fields : List (String × JVal)) (i : Nat) :
    (transformToRows (JVal.obj fields))[i]? =
      if i < rowCount (JVal.obj fields) then some (rowAt (JVal.obj fields) i) else none := by
  rw [transformToRows_obj]
  by_cases h : i < rowCount (JVal.obj fields)
  · simp [List.getElem?_map, List.getElem?_range h, h]
  · have hlen : (List.range (rowCount (JVal.obj fields))).length ≤ i := by
      simpa using Nat.le_of_not_lt h
    simp [List.getElem?_map, List.getElem?_eq_none hlen, h]

theorem rowAt_map_fst (fields : List (String × JVal)) (i : Nat) :
    (rowAt (JVal.obj fields) i).map Prod.fst = fields.map Prod.fst := by
  simp [rowAt, objectKeys, List.map_map, Function.comp]

theorem lookupField_rowAt (fields : List (String × JVal)) (i : Nat) (k : String)
    (h : k ∈ fields.map Prod.fst) :
    lookupField (rowAt (JVal.obj fields) i) k = some (cellValue (JVal.obj fields) k i) := by
  simpa [rowAt, objectKeys] using
    lookupField_map_self (fields.map Prod.fst) (fun k2 => cellValue (JVal.obj fields) k2 i) k h

theorem cellValue_obj_of_mem (fields : List (String × JVal)) (k : String) (v : JVal) (i : Nat)
    (hnd : (fields.map Prod.fst).Nodup) (hmem : (k, v) ∈ fields) :
    cellValue (JVal.obj fields) k i = orNull (getIndex v i) := by
  simp [cellValue, getProp, lookupField_eq_of_nodup_mem fields k v hnd hmem]

theorem orNull_some_of_isUndef_false (v : JVal) (h : v.isUndef = false) :
    orNull (some v) = v := by
  cases v <;> simp [orNull, JVal.isUndef] at h ⊢

/-! Claim theorems about the row transformation. -/

/-- C1: on a mapping whose N fields all bind sequences of the same length L,
`transformToRows` returns exactly L rows; each row lists all N keys (in the
mapping's enumeration order), and row i binds each key to the element at
index i of that key's sequence. -/
theorem transformToRows_equal_lengths
    (fields : List (String × JVal)) (L : Nat)
    (hne : fields ≠ [])
    (hnd : (fields.map Prod.fst).Nodup)
    (hall : ∀ p ∈ fields, ∃ xs : List JVal, p.2 = JVal.arr xs ∧ xs.length = L ∧
        ∀ x ∈ xs, x.isUndef = false) :
    (transformToRows (JVal.obj fields)).length = L ∧
    ∀ i : Nat, i < L → ∀ row, (transformToRows (JVal.obj fields))[i]? = some row →
      row.map Prod.fst = fields.map Prod.fst ∧
      ∀ k xs, (k, JVal.arr xs) ∈ fields → lookupField row k = xs[i]? := by
  obtain ⟨p, rest, rfl⟩ : ∃ p rest, fields = p :: rest := by
    cases fields with
    | nil => exact absurd rfl hne
    | cons p rest => exact ⟨p, rest, rfl⟩
  obtain ⟨k0, v0⟩ := p
  obtain ⟨xs0, hv0, hL0, _⟩ := hall (k0, v0) (List.mem_cons_self _ _)
  have hcount : rowCount (JVal.obj ((k0, v0) :: rest)) = L := by
    rw [rowCount_obj_cons]
    simp only at hv0
    rw [hv0]
    exact hL0
  constructor
  · rw [length_transformToRows_obj, hcount]
  · intro i hi row hrow
    rw [getElem?_transformToRows_obj, hcount, if_pos hi] at hrow
    injection hrow with hrow
    subst hrow
    refine ⟨rowAt_map_fst _ i, ?_⟩
    intro k xs hmemk
    have hk : k ∈ ((k0, v0) :: rest).map Prod.fst := List.mem_map_of_mem Prod.fst hmemk
    obtain ⟨xs2, harr, hlen2, hundef⟩ := hall (k, JVal.arr xs) hmemk
    simp only at harr
    obtain rfl : xs = xs2 := by injection harr
    have hi2 : i < xs.length := by rw [hlen2]; exact hi
    rw [lookupField_rowAt _ i k hk,
        cellValue_obj_of_mem _ k (JVal.arr xs) i hnd hmemk]
    have hget : xs[i]? = some xs[i] := List.getElem?_eq_getElem hi2
    rw [show getIndex (JVal.arr xs) i = xs[i]? from rfl, hget,
        orNull_some_of_isUndef_false _ (hundef _ (List.getElem_mem hi2))]

/-- Witness for C1 at the two-field, two-row input
obj [a ↦ [1, 2], b ↦ [3, 4]]. -/
theorem transformToRows_equal_lengths_witness :
    (transformToRows (JVal.obj [("a", JVal.arr [JVal.num 1, JVal.num 2]),
        ("b", JVal.arr [JVal.num 3, JVal.num 4])])).length = 2 ∧
    ∀ i : Nat, i < 2 → ∀ row,
      (transformToRows (JVal.obj [("a", JVal.arr [JVal.num 1, JVal.num 2]),
          ("b", JVal.arr [JVal.num 3, JVal.num 4])]))[i]? = some row →
      row.map Prod.fst = [("a", JVal.arr [JVal.num 1, JVal.num 2]),
          ("b", JVal.arr [JVal.num 3, JVal.num 4])].map Prod.fst ∧
      ∀ k xs, (k, JVal.arr xs) ∈ [("a", JVal.arr [JVal.num 1, JVal.num 2]),
          ("b", JVal.arr [JVal.num 3, JVal.num 4])] →
        lookupField row k = xs[i]? :=
  transformToRows_equal_lengths
    [("a", JVal.arr [JVal.num 1, JVal.num 2]), ("b", JVal.arr [JVal.num 3, JVal.num 4])] 2
    (by simp) (by simp)
    (by
      intro p hp
      rcases List.mem_cons.mp hp with rfl | hp2
      · exact ⟨[JVal.num 1, JVal.num 2], rfl, rfl, by decide⟩
      · rcases List.mem_cons.mp hp2 with rfl | hp3
        · exact ⟨[JVal.num 3, JVal.num 4], rfl, rfl, by decide⟩
        · cases hp3)

/-- C3: the row count is the length of the sequence bound to the first key
in enumeration order (0 when there are no keys); a key whose sequence is
shorter than the row count reads as null at the out-of-range indices; and
on obj [a ↦ [1,2,3], b ↦ [10]] the result is the three rows
[{a:1, b:10}, {a:2, b:null}, {a:3, b:null}]. -/
theorem transformToRows_first_key_rowcount_padding :
    (∀ (k : String) (xs : List JVal) (rest : List (String × JVal)),
        (transformToRows (JVal.obj ((k, JVal.arr xs) :: rest))).length = xs.length) ∧
    transformToRows (JVal.obj []) = [] ∧
    (∀ (fields : List (String × JVal)) (i : Nat) (k : String) (xs : List JVal)
        (row : List (String × JVal)),
        (fields.map Prod.fst).Nodup → (k, JVal.arr xs) ∈ fields →
        (transformToRows (JVal.obj fields))[i]? = some row → xs.length ≤ i →
        lookupField row k = some JVal.null) ∧
    transformToRows (JVal.obj [("a", JVal.arr [JVal.num 1, JVal.num 2, JVal.num 3]),
        ("b", JVal.arr [JVal.num 10])]) =
      [[("a", JVal.num 1), ("b", JVal.num 10)],
       [("a", JVal.num 2), ("b", JVal.null)],
       [("a", JVal.num 3), ("b", JVal.null)]] := by
  refine ⟨?_, rfl, ?_, rfl⟩
  · intro k xs rest
    rw [length_transformToRows_obj, rowCount_obj_cons]
    rfl
  · intro fields i k xs row hnd hmem hrow hlen
    rw [getElem?_transformToRows_obj] at hrow
    by_cases hi : i < rowCount (JVal.obj fields)
    · rw [if_pos hi] at hrow
      injection hrow with hrow
      subst hrow
      have hk : k ∈ fields.map Prod.fst := List.mem_map_of_mem Prod.fst hmem
      rw [lookupField_rowAt fields i k hk,
          cellValue_obj_of_mem fields k (JVal.arr xs) i hnd hmem]
      have hnone : xs[i]? = none := List.getElem?_eq_none hlen
      rw [show getIndex (JVal.arr xs) i = xs[i]? from rfl, hnone]
      rfl
    · rw [if_neg hi] at hrow
      cases hrow

/-- Witness for C3's padding clause: in row 1 of
obj [a ↦ [1,2,3], b ↦ [10]], key b reads as null. -/
theorem transformToRows_first_key_rowcount_padding_witness :
    lookupField [("a", JVal.num 2), ("b", JVal.null)] "b" = some JVal.null :=
  transformToRows_first_key_rowcount_padding.2.2.1
    [("a", JVal.arr [JVal.num 1, JVal.num 2, JVal.num 3]), ("b", JVal.arr [JVal.num 10])]
    1 "b" [JVal.num 10] [("a", JVal.num 2), ("b", JVal.null)]
    (by simp) (by simp) rfl (by decide)

/-- C9: `transformToRows` is a total function that returns the empty list
on null, undefined, every non-object primitive, and the empty mapping. -/
theorem transformToRows_invalid_inputs_empty :
    transformToRows JVal.null = [] ∧
    transformToRows JVal.undef = [] ∧
    (∀ b, transformToRows (JVal.bool b) = []) ∧
    (∀ n, transformToRows (JVal.num n) = []) ∧
    (∀ s, transformToRows (JVal.str s) = []) ∧
    transformToRows (JVal.obj []) = [] :=
  ⟨rfl, rfl, fun _ => rfl, fun _ => rfl, fun _ => rfl, rfl⟩

/-- C10: the result length always equals the first key's sequence length,
so longer sequences of later keys are truncated; and when the first key
binds a value with no length (null, undefined, a number or a boolean), the
result is empty no matter what the other keys bind. -/
theorem transformToRows_first_key_truncation :
    (∀ (k : String) (xs : List JVal) (rest : List (String × JVal)),
        (transformToRows (JVal.obj ((k, JVal.arr xs) :: rest))).length = xs.length) ∧
    (∀ (k : String) (v : JVal) (rest : List (String × JVal)),
        (v = JVal.null ∨ v = JVal.undef ∨ (∃ n, v = JVal.num n) ∨ (∃ b, v = JVal.bool b)) →
        transformToRows (JVal.obj ((k, v) :: rest)) = []) ∧
    transformToRows (JVal.obj [("a", JVal.arr [JVal.num 1]),
        ("b", JVal.arr [JVal.num 10, JVal.num 20])]) =
      [[("a", JVal.num 1), ("b", JVal.num 10)]] ∧
    transformToRows (JVal.obj [("a", JVal.null),
        ("b", JVal.arr [JVal.num 1, JVal.num 2])]) = [] := by
  refine ⟨?_, ?_, rfl, rfl⟩
  · intro k xs rest
    rw [length_transformToRows_obj, rowCount_obj_cons]
    rfl
  · intro k v rest hv
    have h0 : lengthOrZero v = 0 := by
      rcases hv with rfl | rfl | ⟨n, rfl⟩ | ⟨b, rfl⟩ <;> rfl
    rw [transformToRows_obj, rowCount_obj_cons, h0]
    rfl

/-- Witness for C10's no-length clause: a null first field empties the
result even though the second field binds a non-empty sequence. -/
theorem transformToRows_first_key_truncation_witness :
    transformToRows (JVal.obj [("a", JVal.null), ("b", JVal.arr [JVal.num 5])]) = [] :=
  transformToRows_first_key_truncation.2.1 "a" JVal.null
    [("b", JVal.arr [JVal.num 5])] (Or.inl rfl)

/-! Helper lemmas about the academic-year calculator. -/

theorem daysFromCivil_sep1_bounds (y : Int) (h1 : 100 ≤ y) (h2 : y ≤ 9999) :
    -(10 ^ 8) ≤ daysFromCivil y 9 1 ∧ daysFromCivil y 9 1 ≤ 10 ^ 8 := by
  simp only [daysFromCivil]
  norm_num
  omega

theorem daysFromCivil_aug31_bounds (y : Int) (h1 : 100 ≤ y) (h2 : y ≤ 9999) :
    -(10 ^ 8) ≤ daysFromCivil y 8 31 ∧ daysFromCivil y 8 31 ≤ 10 ^ 8 := by
  simp only [daysFromCivil]
  norm_num
  omega

theorem year_le_of_daysFromCivil_sep1_le (y : Int) (h : daysFromCivil y 9 1 ≤ 10 ^ 8) :
    y ≤ 400000 := by
  simp only [daysFromCivil] at h
  norm_num at h
  omega

/-- Unfolding of `academicYear` once parsing has succeeded. -/
theorem academicYear_parsed (input : JSInput) (y : Int)
    (h : parseIntBase10 (inputString input) = some y) :
    academicYear input =
      if inDateRange (resolveUTCFullYear y) 9 1 &&
          inDateRange (resolveUTCFullYear (y + 1)) 8 31 then
        AcademicYearResult.ok
          { start := isoDatePart (resolveUTCFullYear y) 9 1
          , «end» := isoDatePart (resolveUTCFullYear (y + 1)) 8 31
          , rangeFull := jsIntToString y ++ "-" ++ jsIntToString (y + 1)
          , rangeShort := slice2 (jsIntToString y) ++ "-" ++ slice2 (jsIntToString (y + 1))
          , rangeCompact := slice2 (jsIntToString y) ++ slice2 (jsIntToString (y + 1))
          , rangeMixed := jsIntToString y ++ "-" ++ slice2 (jsIntToString (y + 1))
          , label := jsIntToString y ++ "–" ++ jsIntToString (y + 1) }
      else AcademicYearResult.thrown := by
  unfold academicYear
  rw [h]

/-! Claim theorems about the academic-year calculator. -/

/-- C2 (amended): for every input that parses to a year between 100 and
9998, the returned start date is the four-digit ISO form of September 1 of
that year and the end date is the four-digit ISO form of August 31 of the
following year.  (Parsed years 0–99 are remapped to 1900–1999 by Date.UTC,
and outside 0..9999 the ISO year field uses the six-digit expanded form,
so the claim as stated fails there; see the counterexample.) -/
theorem academicYear_start_end_iso_of_mid_range (input : JSInput) (y : Int)
    (h1 : parseIntBase10 (inputString input) = some y)
    (h2 : 100 ≤ y) (h3 : y ≤ 9998) :
    ∃ r, academicYear input = AcademicYearResult.ok r ∧
      r.start = padZeros (toString y) 4 ++ "-09-01" ∧
      r.«end» = padZeros (toString (y + 1)) 4 ++ "-08-31" := by
  have hry : resolveUTCFullYear y = y := by
    unfold resolveUTCFullYear
    rw [if_neg (by omega)]
  have hry1 : resolveUTCFullYear (y + 1) = y + 1 := by
    unfold resolveUTCFullYear
    rw [if_neg (by omega)]
  have hd1 := daysFromCivil_sep1_bounds y (by omega) (by omega)
  have hd2 := daysFromCivil_aug31_bounds (y + 1) (by omega) (by omega)
  have hcond : (inDateRange (resolveUTCFullYear y) 9 1 &&
      inDateRange (resolveUTCFullYear (y + 1)) 8 31) = true := by
    rw [hry, hry1]
    unfold inDateRange
    simp only [Bool.and_eq_true, decide_eq_true_eq]
    norm_num at hd1 hd2 ⊢
    exact ⟨⟨hd1.1, hd1.2⟩, hd2.1, hd2.2⟩
  have hstart : isoDatePart y 9 1 = padZeros (toString y) 4 ++ "-09-01" := by
    unfold isoDatePart isoYearString
    rw [if_neg (by omega : ¬ y < 0), if_pos (by omega : y ≤ 9999)]
    rw [show padZeros (toString (9 : Int)) 2 = "09" from rfl,
        show padZeros (toString (1 : Int)) 2 = "01" from rfl]
    rw [String.append_assoc, String.append_assoc, String.append_assoc]
    congr 1
  have hend : isoDatePart (y + 1) 8 31 = padZeros (toString (y + 1)) 4 ++ "-08-31" := by
    unfold isoDatePart isoYearString
    rw [if_neg (by omega : ¬ y + 1 < 0), if_pos (by omega : y + 1 ≤ 9999)]
    rw [show padZeros (toString (8 : Int)) 2 = "08" from rfl,
        show padZeros (toString (31 : Int)) 2 = "31" from rfl]
    rw [String.append_assoc, String.append_assoc, String.append_assoc]
    congr 1
  rw [academicYear_parsed input y h1, hcond]
  refine ⟨_, if_pos rfl, ?_, ?_⟩
  · show isoDatePart (resolveUTCFullYear y) 9 1 = padZeros (toString y) 4 ++ "-09-01"
    rw [hry]
    exact hstart
  · show isoDatePart (resolveUTCFullYear (y + 1)) 8 31 =
      padZeros (toString (y + 1)) 4 ++ "-08-31"
    rw [hry1]
    exact hend

/-- Witness for C2's amended statement at input 2025. -/
theorem academicYear_start_end_iso_witness :
    ∃ r, academicYear (JSInput.int 2025) = AcademicYearResult.ok r ∧
      r.start = padZeros (toString (2025 : Int)) 4 ++ "-09-01" ∧
      r.«end» = padZeros (toString ((2025 : Int) + 1)) 4 ++ "-08-31" :=
  academicYear_start_end_iso_of_mid_range (JSInput.int 2025) 2025
    (by decide) (by decide) (by decide)

/-- C2 (counterexample): input 25 parses successfully to the year 25, but
the returned start date is "1925-09-01" — Date.UTC's two-digit-year rule —
and not the ISO date "0025-09-01" of September 1 of year 25. -/
theorem academicYear_year25_start_not_iso :
    academicYear (JSInput.int 25) = AcademicYearResult.ok
      { start := "1925-09-01", «end» := "1926-08-31", rangeFull := "25-26",
        rangeShort := "25-26", rangeCompact := "2526", rangeMixed := "25-26",
        label := "25–26" } ∧
    ("1925-09-01" : String) ≠ "0025-09-01" :=
  ⟨by decide, by decide⟩

/-- C4: `academicYear 2025` returns exactly the documented record, and the
label separator is the single character U+2013 (en dash). -/
theorem academicYear_2025_exact :
    academicYear (JSInput.int 2025) = AcademicYearResult.ok
      { start := "2025-09-01", «end» := "2026-08-31", rangeFull := "2025-2026",
        rangeShort := "25-26", rangeCompact := "2526", rangeMixed := "2025-26",
        label := "2025–2026" } ∧
    ("2025–2026" : String).toList =
      ("2025" : String).toList ++ [Char.ofNat 0x2013] ++ ("2026" : String).toList :=
  ⟨by decide, by decide⟩

/-- C5: for any clock reading, the current academic year is the UTC
calendar year minus one in months January–August (0-based months 0–7) and
the calendar year itself from September (month 8, inclusive) onwards. -/
theorem currentAcademicYear_boundary (utcFullYear : Int) (utcMonth : Nat)
    (h : utcMonth ≤ 11) :
    (utcMonth ≤ 7 → currentAcademicYear utcFullYear utcMonth = utcFullYear - 1) ∧
    (8 ≤ utcMonth → currentAcademicYear utcFullYear utcMonth = utcFullYear) ∧
    currentAcademicYear utcFullYear 8 = utcFullYear := by
  unfold currentAcademicYear
  refine ⟨fun hm => ?_, fun hm => ?_, rfl⟩
  · rw [if_pos (by omega)]
  · rw [if_neg (by omega)]

/-- Witness for C5 at a July reading (month index 6). -/
theorem currentAcademicYear_boundary_witness :
    currentAcademicYear 2025 6 = 2025 - 1 :=
  (currentAcademicYear_boundary 2025 6 (by decide)).1 (by decide)

/-- C6 (counterexample): "275761" parses to the integer 275761, yet
`academicYear` neither returns null nor an object there: September 1 of
275761 exceeds the maximal representable Date, so `toISOString()` throws
a RangeError. -/
theorem academicYear_year275761_throws :
    parseIntBase10 (inputString (JSInput.str "275761")) = some 275761 ∧
    academicYear (JSInput.str "275761") = AcademicYearResult.thrown :=
  ⟨by decide, by decide⟩

/-- C6 (amended): `academicYear` returns null (after the console.error
diagnostic) exactly when parseInt fails; when parsing succeeds it returns
an object whenever both boundary dates are representable, and throws a
RangeError otherwise. -/
theorem academicYear_null_iff_parse_failure (input : JSInput) :
    (academicYear input = AcademicYearResult.nullResult ↔
      parseIntBase10 (inputString input) = none) ∧
    (∀ y, parseIntBase10 (inputString input) = some y →
      (inDateRange (resolveUTCFullYear y) 9 1 &&
        inDateRange (resolveUTCFullYear (y + 1)) 8 31) = true →
      ∃ r, academicYear input = AcademicYearResult.ok r) ∧
    (∀ y, parseIntBase10 (inputString input) = some y →
      (inDateRange (resolveUTCFullYear y) 9 1 &&
        inDateRange (resolveUTCFullYear (y + 1)) 8 31) = false →
      academicYear input = AcademicYearResult.thrown) := by
  cases hp : parseIntBase10 (inputString input) with
  | none =>
      have hnull : academicYear input = AcademicYearResult.nullResult := by
        unfold academicYear
        rw [hp]
      refine ⟨⟨fun _ => rfl, fun _ => hnull⟩, ?_, ?_⟩
      · intro y hy
        exact Option.noConfusion hy
      · intro y hy
        exact Option.noConfusion hy
  | some y =>
      refine ⟨⟨?_, ?_⟩, ?_, ?_⟩
      · intro h
        rw [academicYear_parsed input y hp] at h
        by_cases hc : (inDateRange (resolveUTCFullYear y) 9 1 &&
            inDateRange (resolveUTCFullYear (y + 1)) 8 31) = true
        · rw [if_pos hc] at h
          cases h
        · rw [if_neg hc] at h
          cases h
      · intro h
        cases h
      · intro y2 hy2 hc
        injection hy2 with hy2
        subst hy2
        have hok := academicYear_parsed input y hp
        rw [if_pos hc] at hok
        exact ⟨_, hok⟩
      · intro y2 hy2 hc
        injection hy2 with hy2
        subst hy2
        rw [academicYear_parsed input y hp, if_neg (by simp [hc])]

/-- Witness for C6's amended statement: the unparseable input "abc" yields
the null result. -/
theorem academicYear_null_iff_parse_failure_witness :
    academicYear (JSInput.str "abc") = AcademicYearResult.nullResult :=
  ((academicYear_null_iff_parse_failure (JSInput.str "abc")).1).mpr (by decide)

/-- C7: whenever the parsed year has at least four decimal digits and a
record is returned, its two-digit forms are the last two characters of the
decimal numerals of the year and of the year after, with rangeShort,
rangeCompact and rangeMixed assembled from them as specified. -/
theorem academicYear_two_digit_slices (input : JSInput) (y : Int) (r : AcademicYearInfo)
    (h1 : parseIntBase10 (inputString input) = some y)
    (h2 : 1000 ≤ y)
    (h3 : academicYear input = AcademicYearResult.ok r) :
    r.rangeShort = slice2 (toString y) ++ "-" ++ slice2 (toString (y + 1)) ∧
    r.rangeCompact = slice2 (toString y) ++ slice2 (toString (y + 1)) ∧
    r.rangeMixed = toString y ++ "-" ++ slice2 (toString (y + 1)) := by
  rw [academicYear_parsed input y h1] at h3
  by_cases hc : (inDateRange (resolveUTCFullYear y) 9 1 &&
      inDateRange (resolveUTCFullYear (y + 1)) 8 31) = true
  · rw [if_pos hc] at h3
    injection h3 with h3
    subst h3
    have hc2 := hc
    simp only [Bool.and_eq_true] at hc2
    have h4 : inDateRange (resolveUTCFullYear y) 9 1 = true := hc2.1
    rw [show resolveUTCFullYear y = y from by unfold resolveUTCFullYear; rw [if_neg (by omega)]]
      at h4
    unfold inDateRange at h4
    simp only [Bool.and_eq_true, decide_eq_true_eq] at h4
    have hyb : y ≤ 400000 := year_le_of_daysFromCivil_sep1_le y h4.2
    have hpow : (10 : Nat) ^ 21 = 1000000000000000000000 := by norm_num
    have hstr : jsIntToString y = toString y := by
      unfold jsIntToString
      rw [if_pos (by omega)]
    have hstr1 : jsIntToString (y + 1) = toString (y + 1) := by
      unfold jsIntToString
      rw [if_pos (by omega)]
    refine ⟨?_, ?_, ?_⟩
    · show slice2 (jsIntToString y) ++ "-" ++ slice2 (jsIntToString (y + 1)) = _
      rw [hstr, hstr1]
    · show slice2 (jsIntToString y) ++ slice2 (jsIntToString (y + 1)) = _
      rw [hstr, hstr1]
    · show jsIntToString y ++ "-" ++ slice2 (jsIntToString (y + 1)) = _
      rw [hstr, hstr1]
  · rw [if_neg hc] at h3
    cases h3

/-- Witness for C7 at input 2025. -/
theorem academicYear_two_digit_slices_witness :
    ({ start := "2025-09-01", «end» := "2026-08-31", rangeFull := "2025-2026",
       rangeShort := "25-26", rangeCompact := "2526", rangeMixed := "2025-26",
       label := "2025–2026" } : AcademicYearInfo).rangeShort =
      slice2 (toString (2025 : Int)) ++ "-" ++ slice2 (toString ((2025 : Int) + 1)) ∧
    ({ start := "2025-09-01", «end» := "2026-08-31", rangeFull := "2025-2026",
       rangeShort := "25-26", rangeCompact := "2526", rangeMixed := "2025-26",
       label := "2025–2026" } : AcademicYearInfo).rangeCompact =
      slice2 (toString (2025 : Int)) ++ slice2 (toString ((2025 : Int) + 1)) ∧
    ({ start := "2025-09-01", «end» := "2026-08-31", rangeFull := "2025-2026",
       rangeShort := "25-26", rangeCompact := "2526", rangeMixed := "2025-26",
       label := "2025–2026" } : AcademicYearInfo).rangeMixed =
      toString (2025 : Int) ++ "-" ++ slice2 (toString ((2025 : Int) + 1)) :=
  academicYear_two_digit_slices (JSInput.int 2025) 2025
    { start := "2025-09-01", «end» := "2026-08-31", rangeFull := "2025-2026",
      rangeShort := "25-26", rangeCompact := "2526", rangeMixed := "2025-26",
      label := "2025–2026" }
    (by decide) (by decide) (by decide)

/-- C8 (counterexample): at 10^21 — the first magnitude where
Number::toString switches to exponential notation — the integer input and
its decimal string form disagree: parseInt reads "1e+21" as 1, giving an
object, while the 22-digit string parses to 10^21, whose September 1 is
unrepresentable, so the call throws instead. -/
theorem academicYear_int_string_mismatch_1e21 :
    academicYear (JSInput.int (10 ^ 21)) ≠
      academicYear (JSInput.str (toString ((10 : Int) ^ 21))) := by decide

/-- C8 (amended): for every integer of magnitude below 10^21 — the full
range where Number::toString uses plain decimal notation — `academicYear`
on the integer and on its decimal string form agree. -/
theorem academicYear_int_string_agree (n : Int) (h : n.natAbs < 10 ^ 21) :
    academicYear (JSInput.int n) = academicYear (JSInput.str (toString n)) := by
  have hs : inputString (JSInput.int n) = inputString (JSInput.str (toString n)) := by
    show jsIntToString n = toString n
    unfold jsIntToString
    rw [if_pos h]
  unfold academicYear
  rw [hs]

/-- Witness for C8's amended statement at 2025. -/
theorem academicYear_int_string_agree_witness :
    academicYear (JSInput.int 2025) = academicYear (JSInput.str (toString (2025 : Int))) :=
  academicYear_int_string_agree 2025 (by decide)

end EduLib
